import Mathlib

/-!
Verification of db_doc.py, a script that builds a data-dictionary spreadsheet
from the INFORMATION_SCHEMA of a database: one worksheet per base table, one
data row per column.

The embedding below mirrors the source structure:
  * `Constraint`, `Column` — the two namedtuples holding catalog records;
  * `Field`, `Field.to_row` — the per-column spreadsheet row value;
  * `SchemaCache` with `get_column_reference`, `is_column_a_key`,
    `is_column_unique`, `get_columns_for_table`;
  * `DBService.get_tables` / `get_columns` / `get_constraints` — the three
    catalog queries, modelled as filters (and a stable sort for ORDER BY)
    over a raw catalog whose rows are the pre-join contents of the
    INFORMATION_SCHEMA views;
  * `XLService.describe_table`, `DDSpider.make_field`, `DDSpider.run` — the
    workbook assembly, with the workbook as a list of worksheets and the
    save as the final event of an operation trace;
  * `discoverdbE` — the pipeline with each external step allowed to fail,
    exceptions modelled by `Except` with plain monadic propagation (the
    source contains no try/except).

Python scalar values that can land in a spreadsheet cell (None, str, int,
bool) are modelled by the inductive `Cell`, which keeps the distinction the
original keeps: `Field.__init__` stores `str(size) if size else size`, so a
size of 255 is stored as the string "255" while a size of 0 or None is
stored unchanged.
-/

namespace DbDoc

/-- A value held in a `Field` attribute / written to a worksheet cell:
the Python scalars None, str, int and bool that actually occur. -/
inductive Cell
  | empty
  | str (s : String)
  | int (n : Int)
  | bool (b : Bool)
  deriving DecidableEq, Repr

/-- The `Constraint` namedtuple of db_doc.py: one row of the constraint
query, i.e. one (constraint, column) pair with the referenced side resolved
for foreign keys. `SOURCE_TABLE`/`SOURCE_COLUMN` come from a LEFT JOIN and
are only meaningful on FOREIGN KEY rows. -/
structure Constraint where
  CONSTRAINT_NAME : String
  CONSTRAINT_TYPE : String
  CONSTRAINED_TABLE : String
  CONSTRAINED_COLUMN : String
  SOURCE_TABLE : String
  SOURCE_COLUMN : String
  deriving DecidableEq, Repr

/-- The `Column` namedtuple of db_doc.py: one row of the column query.
`MAX_LENGTH` is CHARACTER_MAXIMUM_LENGTH (NULL for non-character types,
-1 for MAX types), hence `Option Int`. -/
structure Column where
  TABLE_NAME : String
  COLUMN_NAME : String
  IS_NULLABLE : String
  DATA_TYPE : String
  MAX_LENGTH : Option Int
  COLUMN_DEFAULT : Option String
  IS_IDENTITY : Bool
  deriving DecidableEq, Repr

/-- The size normalisation in `Field.__init__`:
`self.size = str(size) if size else size`. A falsy size (None or the
integer 0) is kept unchanged; any other integer becomes its decimal
string. -/
def store_size : Option Int → Cell
  | Option.none => Cell.empty
  | Option.some n => if n = 0 then Cell.int n else Cell.str (toString n)

/-- The `Field` class of db_doc.py after `DDSpider.make_field` has filled
it: the attribute types are the ones that arise on that code path. -/
structure Field where
  key : Option String
  name : String
  cap : Option String
  typ : String
  size : Cell
  default : Option String
  null : String
  uniq : Bool
  ref : Option String
  notes : Option String
  deriving DecidableEq, Repr

/-- Embeds an optional string attribute into a cell value. -/
def optCell : Option String → Cell
  | Option.none => Cell.empty
  | Option.some s => Cell.str s

/-- Source `Field.to_row`: the ten cell values in header order. -/
def Field.to_row (f : Field) : List Cell :=
  [optCell f.key, Cell.str f.name, optCell f.cap, Cell.str f.typ, f.size,
   optCell f.default, Cell.str f.null, Cell.bool f.uniq, optCell f.ref,
   optCell f.notes]

/-- The fixed header list set in `TableDescription.__init__`. -/
def dd_headers : List String :=
  ["Primary/Foreign Key", "Field Name", "Caption", "Data Type", "Field Size",
   "Default", "Nullable", "Unique", "Reference", "Notes"]

/-- Row 1 of every worksheet, as written by `XLService._write_headers`. -/
def headerRow : List Cell := dd_headers.map Cell.str

/-- The `TableDescription` class: a table name plus its ordered fields
(the headers member is the constant `dd_headers`). -/
structure TableDescription where
  table_name : String
  fields : List Field
  deriving Repr

/-- The `SchemaCache` class: the three collections loaded at bootstrap. -/
structure SchemaCache where
  tables : List String
  columns : List Column
  constraints : List Constraint
  deriving Repr

/-- Source `SchemaCache.get_column_reference`: collect
"SOURCE_TABLE.SOURCE_COLUMN" over the FOREIGN KEY constraints whose
constrained (table, column) matches, in collection order; join with "; ",
or None when there are none. -/
def SchemaCache.get_column_reference (sc : SchemaCache) (table column : String) :
    Option String :=
  let refs :=
    ((sc.constraints.filter (fun c => c.CONSTRAINT_TYPE == "FOREIGN KEY")).filter
        (fun fk => fk.CONSTRAINED_TABLE == table && fk.CONSTRAINED_COLUMN == column)).map
      (fun fk => fk.SOURCE_TABLE ++ "." ++ fk.SOURCE_COLUMN)
  if refs.length > 0 then Option.some (String.intercalate "; " refs)
  else Option.none

/-- Source `SchemaCache.is_column_a_key`: "P" is appended when a PRIMARY KEY
constraint matches the (table, column), then "F" when a FOREIGN KEY
constraint does; the parts are joined with "/", or None when both are
absent. -/
def SchemaCache.is_column_a_key (sc : SchemaCache) (table column : String) :
    Option String :=
  let column_constraints := sc.constraints.filter
    (fun c => c.CONSTRAINED_TABLE == table && c.CONSTRAINED_COLUMN == column)
  let vals : List String :=
    (if column_constraints.any (fun c => c.CONSTRAINT_TYPE == "PRIMARY KEY")
      then ["P"] else []) ++
    (if column_constraints.any (fun c => c.CONSTRAINT_TYPE == "FOREIGN KEY")
      then ["F"] else [])
  if vals.length > 0 then Option.some (String.intercalate "/" vals)
  else Option.none

/-- Source `SchemaCache.is_column_unique`: any UNIQUE constraint matches. -/
def SchemaCache.is_column_unique (sc : SchemaCache) (table column : String) : Bool :=
  sc.constraints.any (fun c =>
    c.CONSTRAINT_TYPE == "UNIQUE" && c.CONSTRAINED_TABLE == table &&
      c.CONSTRAINED_COLUMN == column)

/-- Source `SchemaCache.get_columns_for_table`: the columns of one table, in the
order of the cached column collection. -/
def SchemaCache.get_columns_for_table (sc : SchemaCache) (table : String) :
    List Column :=
  sc.columns.filter (fun c => c.TABLE_NAME == table)

/-- One row of INFORMATION_SCHEMA.TABLES, as selected by the queries. -/
structure TableRow where
  TABLE_CATALOG : String
  TABLE_NAME : String
  TABLE_TYPE : String
  deriving DecidableEq, Repr

/-- One row of INFORMATION_SCHEMA.COLUMNS joined with the computed
IS_IDENTITY column property, before the WHERE/ORDER BY of the query. -/
structure ColumnRow where
  TABLE_NAME : String
  COLUMN_NAME : String
  IS_NULLABLE : String
  DATA_TYPE : String
  CHARACTER_MAXIMUM_LENGTH : Option Int
  COLUMN_DEFAULT : Option String
  IS_IDENTITY : Bool
  ORDINAL_POSITION : Nat
  deriving DecidableEq, Repr

/-- One row of the constraint query before its WHERE clause: a
(constraint, column) pair from TABLE_CONSTRAINTS joined with
KEY_COLUMN_USAGE, with the referenced side resolved through
REFERENTIAL_CONSTRAINTS for foreign keys. The joins are modelled as
already performed, which is faithful because constraint names are unique
in INFORMATION_SCHEMA and the WHERE clause only filters rows. -/
structure ConstraintRow where
  CONSTRAINT_NAME : String
  CONSTRAINT_TYPE : String
  TABLE_NAME : String
  COLUMN_NAME : String
  SOURCE_TABLE : String
  SOURCE_COLUMN : String
  deriving DecidableEq, Repr

/-- The raw contents of the three catalog views for one database. -/
structure RawCatalog where
  tables : List TableRow
  columns : List ColumnRow
  constraints : List ConstraintRow
  deriving Repr

/-- The ORDER BY c.TABLE_NAME, c.ORDINAL_POSITION of the column query:
lexicographic order on (TABLE_NAME, ORDINAL_POSITION). -/
def columnOrder (a b : ColumnRow) : Prop :=
  a.TABLE_NAME < b.TABLE_NAME ∨
    (a.TABLE_NAME = b.TABLE_NAME ∧ a.ORDINAL_POSITION ≤ b.ORDINAL_POSITION)

instance : DecidableRel columnOrder := fun a b => by
  unfold columnOrder; infer_instance

/-- Source `DBService.get_tables`: names of base tables, excluding the hard-coded
`sysdiagrams` diagram table. -/
def DBService.get_tables (cat : RawCatalog) : List String :=
  (cat.tables.filter (fun r =>
      r.TABLE_NAME != "sysdiagrams" && r.TABLE_TYPE == "BASE TABLE")).map
    (fun r => r.TABLE_NAME)

/-- Source `DBService.get_columns`: columns whose table is a base table other than
`sysdiagrams` (the INNER JOIN on TABLE_NAME acts as a semijoin, table names
being unique in INFORMATION_SCHEMA.TABLES), ordered by table name then
ordinal position. -/
def DBService.get_columns (cat : RawCatalog) : List Column :=
  ((cat.columns.filter (fun c => cat.tables.any (fun t =>
        t.TABLE_NAME == c.TABLE_NAME && t.TABLE_NAME != "sysdiagrams" &&
          t.TABLE_TYPE == "BASE TABLE"))).insertionSort columnOrder).map
    (fun c => Column.mk c.TABLE_NAME c.COLUMN_NAME c.IS_NULLABLE c.DATA_TYPE
      c.CHARACTER_MAXIMUM_LENGTH c.COLUMN_DEFAULT c.IS_IDENTITY)

/-- Source `DBService.get_constraints`: (constraint, column) rows restricted to
PRIMARY KEY / FOREIGN KEY / UNIQUE constraints on tables other than
`sysdiagrams`. -/
def DBService.get_constraints (cat : RawCatalog) : List Constraint :=
  (cat.constraints.filter (fun k =>
      (k.CONSTRAINT_TYPE == "PRIMARY KEY" || k.CONSTRAINT_TYPE == "FOREIGN KEY" ||
        k.CONSTRAINT_TYPE == "UNIQUE") && k.TABLE_NAME != "sysdiagrams")).map
    (fun k => Constraint.mk k.CONSTRAINT_NAME k.CONSTRAINT_TYPE k.TABLE_NAME
      k.COLUMN_NAME k.SOURCE_TABLE k.SOURCE_COLUMN)

/-- Source `SchemaCache.bootstrap`: run the three queries and keep the results. -/
def SchemaCache.bootstrap (cat : RawCatalog) : SchemaCache :=
  { tables := DBService.get_tables cat
    columns := DBService.get_columns cat
    constraints := DBService.get_constraints cat }

/-- A worksheet: its title and its rows of cells. `describe_table` writes
the header into row 1 and one field row per `Field` beneath it
(`_write_fields` iterates rows 2 .. len(fields)+1 zipped with the field
rows, so exactly the field rows are written). -/
structure Worksheet where
  name : String
  rows : List (List Cell)
  deriving DecidableEq, Repr

/-- Source `XLService.describe_table`: add a sheet named after the table, write
the headers, then the field rows. -/
def XLService.describe_table (td : TableDescription) : Worksheet :=
  { name := td.table_name
    rows := headerRow :: td.fields.map Field.to_row }

/-- Source `XLService.__init__`: the output path
`"{0}\\{1}_DataDictionary.xlsx".format(directory, dbname)` (a single
backslash between directory and file name). -/
def XLService.fullpath (directory dbname : String) : String :=
  directory ++ "\\" ++ dbname ++ "_DataDictionary.xlsx"

/-- Source `DDSpider.make_field`: copy name/type/nullable/size/default from the
column record (size through `store_size`), look up uniqueness, key role and
reference in the cache, and set the caption to "Identity" iff the identity
flag is truthy. -/
def DDSpider.make_field (cache : SchemaCache) (table : String) (col : Column) :
    Field :=
  { name := col.COLUMN_NAME
    typ := col.DATA_TYPE
    null := col.IS_NULLABLE
    size := store_size col.MAX_LENGTH
    default := col.COLUMN_DEFAULT
    uniq := cache.is_column_unique table col.COLUMN_NAME
    key := cache.is_column_a_key table col.COLUMN_NAME
    ref := cache.get_column_reference table col.COLUMN_NAME
    cap := if col.IS_IDENTITY then Option.some "Identity" else Option.none
    notes := Option.none }

/-- The worksheets produced by `DDSpider.run`: for each cached table, in
order, a `TableDescription` is built from the table cached columns and
handed to `describe_table`. The workbook starts empty (the default sheet
is removed in `XLService.__init__`). -/
def DDSpider.run (cache : SchemaCache) : List Worksheet :=
  cache.tables.map (fun table =>
    XLService.describe_table
      { table_name := table
        fields := (cache.get_columns_for_table table).map
          (DDSpider.make_field cache table) })

/-- An observable operation of the `XLService`: adding a filled worksheet,
or saving the workbook to a path. -/
inductive XLOp
  | describe (ws : Worksheet)
  | saveOp (path : String)
  deriving DecidableEq, Repr

/-- Recognizes a save event. -/
def XLOp.isSave : XLOp → Bool
  | XLOp.saveOp _ => true
  | XLOp.describe _ => false

/-- The trace of `XLService` operations issued by `DDSpider.run`: one
`describe_table` per cached table, then the single `save()`. -/
def DDSpider.runOps (cache : SchemaCache) (directory dbname : String) : List XLOp :=
  (DDSpider.run cache).map XLOp.describe ++
    [XLOp.saveOp (XLService.fullpath directory dbname)]

/-- The failure conditions of the external steps of `discoverdb`:
connecting / querying the catalog and saving the workbook. -/
inductive StepError
  | connect
  | tablesQuery
  | columnsQuery
  | constraintsQuery
  | saveFailure
  deriving DecidableEq, Repr

/-- The outcomes of the external steps of one `discoverdb` invocation:
each catalog query either yields its rows or raises, and the final
workbook save either succeeds or raises. -/
structure DBOracle where
  tablesRes : Except StepError (List String)
  columnsRes : Except StepError (List Column)
  constraintsRes : Except StepError (List Constraint)
  dbname : String
  saveRes : Except StepError Unit

/-- Source `discoverdb` with fallible external steps: bootstrap the cache from the
three queries, build every worksheet, then save. The source has no
try/except, so an exception anywhere propagates monadically and nothing
later runs; the `Except.ok` value is the saved file (path and sheets),
which exists only when every step succeeded. -/
def discoverdbE (o : DBOracle) (directory : String) :
    Except StepError (String × List Worksheet) :=
  o.tablesRes.bind (fun ts =>
    o.columnsRes.bind (fun cols =>
      o.constraintsRes.bind (fun cons =>
        o.saveRes.bind (fun _ =>
          Except.ok (XLService.fullpath directory o.dbname,
            DDSpider.run (SchemaCache.mk ts cols cons))))))

/-- The file durably produced by a run: present exactly when the pipeline
reached the end without an exception. -/
def savedFile (r : Except StepError (String × List Worksheet)) :
    Option (String × List Worksheet) :=
  match r with
  | Except.ok x => Option.some x
  | Except.error _ => Option.none

/-- C2: `is_column_a_key` returns "P/F" exactly when both a PRIMARY KEY and
a FOREIGN KEY constraint constrain the (table, column); exactly "P" or
exactly "F" when only the corresponding one does; and None when neither
does — no other value is possible. -/
theorem is_column_a_key_exhaustive (sc : SchemaCache) (t c : String) :
    sc.is_column_a_key t c =
      (if sc.constraints.any (fun k => (k.CONSTRAINED_TABLE == t &&
            k.CONSTRAINED_COLUMN == c) && k.CONSTRAINT_TYPE == "PRIMARY KEY") then
        if sc.constraints.any (fun k => (k.CONSTRAINED_TABLE == t &&
            k.CONSTRAINED_COLUMN == c) && k.CONSTRAINT_TYPE == "FOREIGN KEY") then
          Option.some "P/F"
        else Option.some "P"
      else
        if sc.constraints.any (fun k => (k.CONSTRAINED_TABLE == t &&
            k.CONSTRAINED_COLUMN == c) && k.CONSTRAINT_TYPE == "FOREIGN KEY") then
          Option.some "F"
        else Option.none) := by
  unfold SchemaCache.is_column_a_key
  simp only [List.any_filter]
  cases hP : sc.constraints.any (fun k => (k.CONSTRAINED_TABLE == t &&
      k.CONSTRAINED_COLUMN == c) && k.CONSTRAINT_TYPE == "PRIMARY KEY") <;>
    cases hF : sc.constraints.any (fun k => (k.CONSTRAINED_TABLE == t &&
        k.CONSTRAINED_COLUMN == c) && k.CONSTRAINT_TYPE == "FOREIGN KEY") <;>
      simp [hP, hF] <;> rfl

/-- C3: `get_column_reference` is None exactly when no FOREIGN KEY
constraint has the (table, column) as its constrained side; otherwise it is
the "; "-joined "SOURCE_TABLE.SOURCE_COLUMN" of every matching foreign-key
constraint, in constraint-collection order. -/
theorem get_column_reference_characterisation (sc : SchemaCache) (t c : String) :
    sc.get_column_reference t c =
      (let fks := sc.constraints.filter (fun k =>
        (k.CONSTRAINED_TABLE == t && k.CONSTRAINED_COLUMN == c) &&
          k.CONSTRAINT_TYPE == "FOREIGN KEY")
      if fks.isEmpty then Option.none
      else Option.some (String.intercalate "; " (fks.map (fun k =>
        k.SOURCE_TABLE ++ "." ++ k.SOURCE_COLUMN)))) := by
  unfold SchemaCache.get_column_reference
  simp only [List.filter_filter, List.length_map]
  by_cases h : (sc.constraints.filter (fun k =>
      (k.CONSTRAINED_TABLE == t && k.CONSTRAINED_COLUMN == c) &&
        k.CONSTRAINT_TYPE == "FOREIGN KEY")) = []
  · simp [h]
  · simp [h, List.isEmpty_iff, List.length_pos.mpr h]

/-- C4: the Field built by `make_field` carries caption "Identity" when the
column identity flag is true, and no caption when it is false. -/
theorem make_field_caption (cache : SchemaCache) (t : String) (col : Column) :
    ((DDSpider.make_field cache t col).cap = Option.some "Identity" ↔
      col.IS_IDENTITY = true) ∧
    ((DDSpider.make_field cache t col).cap = Option.none ↔
      col.IS_IDENTITY = false) := by
  cases h : col.IS_IDENTITY <;> simp [DDSpider.make_field, h]

/-- The size copy as the spec words it for C5: the Field size is exactly
the Column MAX_LENGTH catalog value, unchanged (NULL stays absent, an
integer stays that integer). Spec-side definition, to be compared with the
source `store_size`. -/
def specSizeCell : Option Int → Cell
  | Option.none => Cell.empty
  | Option.some n => Cell.int n

/-- A varchar(255) column, as the catalog would report it. -/
def col255 : Column :=
  Column.mk "T" "name" "NO" "varchar" (Option.some 255) Option.none false

/-- A cache holding the single table "T" with the single column `col255`
and no constraints. -/
def cacheT : SchemaCache := SchemaCache.mk ["T"] [col255] []

/-- C5 counterexample: on a varchar(255) column the built Field does not
carry all catalog values unchanged — the size is stored as the string
"255", not as the catalog integer 255. -/
theorem make_field_not_all_values_unchanged :
    ¬ ((DDSpider.make_field cacheT "T" col255).name = col255.COLUMN_NAME ∧
      (DDSpider.make_field cacheT "T" col255).typ = col255.DATA_TYPE ∧
      (DDSpider.make_field cacheT "T" col255).null = col255.IS_NULLABLE ∧
      (DDSpider.make_field cacheT "T" col255).default = col255.COLUMN_DEFAULT ∧
      (DDSpider.make_field cacheT "T" col255).size =
        specSizeCell col255.MAX_LENGTH) := by decide

/-- C5 as amended: `make_field` copies the column name, data type,
nullable flag and default unchanged, and stores the size through the
`str(size) if size else size` normalisation of `Field.__init__` (decimal
string for a non-zero length, unchanged for NULL or 0). -/
theorem make_field_copies_catalog_values (cache : SchemaCache) (t : String)
    (col : Column) :
    (DDSpider.make_field cache t col).name = col.COLUMN_NAME ∧
    (DDSpider.make_field cache t col).typ = col.DATA_TYPE ∧
    (DDSpider.make_field cache t col).null = col.IS_NULLABLE ∧
    (DDSpider.make_field cache t col).default = col.COLUMN_DEFAULT ∧
    (DDSpider.make_field cache t col).size = store_size col.MAX_LENGTH :=
  ⟨rfl, rfl, rfl, rfl, rfl⟩

/-- C10: a falsy size (NULL or the integer 0) is stored unchanged in the
Field, while any other length is stored as its decimal string; in
particular a character-maximum-length of 0 reaches the worksheet row (cell
index 4, the Field Size column) as the integer 0, not the string "0". -/
theorem store_size_falsy_unchanged (cache : SchemaCache) (t : String)
    (col : Column) :
    (col.MAX_LENGTH = Option.none →
      (DDSpider.make_field cache t col).size = Cell.empty) ∧
    (col.MAX_LENGTH = Option.some 0 →
      (DDSpider.make_field cache t col).size = Cell.int 0 ∧
      ((DDSpider.make_field cache t col).to_row)[4]? =
        Option.some (Cell.int 0) ∧
      (DDSpider.make_field cache t col).size ≠ Cell.str "0") ∧
    (∀ n : Int, n ≠ 0 → col.MAX_LENGTH = Option.some n →
      (DDSpider.make_field cache t col).size = Cell.str (toString n)) := by
  refine ⟨fun h => ?_, fun h => ?_, fun n hn h => ?_⟩
  · simp [DDSpider.make_field, store_size, h]
  · refine ⟨?_, ?_, ?_⟩ <;>
      simp [DDSpider.make_field, store_size, h, Field.to_row]
  · simp [DDSpider.make_field, store_size, h, hn]

/-- An int column whose character-maximum-length is NULL. -/
def colIdInt : Column :=
  Column.mk "T" "id" "NO" "int" Option.none Option.none true

/-- A column with a character-maximum-length of 0. -/
def colZero : Column :=
  Column.mk "T" "z" "YES" "varchar" (Option.some 0) Option.none false

/-- C10 witness: the three cases of `store_size_falsy_unchanged` at
concrete columns — NULL stays absent, 0 stays the integer 0 (also in the
written row), 255 becomes the string "255". -/
theorem store_size_falsy_unchanged_witness :
    (DDSpider.make_field cacheT "T" colIdInt).size = Cell.empty ∧
    ((DDSpider.make_field cacheT "T" colZero).to_row)[4]? =
      Option.some (Cell.int 0) ∧
    (DDSpider.make_field cacheT "T" col255).size = Cell.str "255" :=
  ⟨(store_size_falsy_unchanged cacheT "T" colIdInt).1 rfl,
    ((store_size_falsy_unchanged cacheT "T" colZero).2.1 rfl).2.1,
    (store_size_falsy_unchanged cacheT "T" col255).2.2 255 (by decide) rfl⟩

/-- The output path as the spec words it for C6: directory and database
name joined with a forward slash. Spec-side definition, to be compared
with the source `XLService.fullpath`. -/
def spec_save_path (directory dbname : String) : String :=
  directory ++ "/" ++ dbname ++ "_DataDictionary.xlsx"

/-- A cache of an empty catalog. -/
def cacheEmpty : SchemaCache := SchemaCache.mk [] [] []

/-- C6 counterexample: the single terminal save does not go to the
forward-slash path `<directory>/<dbname>_DataDictionary.xlsx`; the code
joins directory and file name with a backslash. -/
theorem save_path_not_forward_slash :
    (DDSpider.runOps cacheEmpty "out" "db").getLast? ≠
      Option.some (XLOp.saveOp (spec_save_path "out" "db")) ∧
    (DDSpider.runOps cacheEmpty "out" "db").getLast? =
      Option.some (XLOp.saveOp "out\\db_DataDictionary.xlsx") := by decide

/-- C6 as amended: in the trace of workbook operations of a run, saving
happens exactly once, as the last operation, after every worksheet has
been written, and its path is
`<directory>\<databaseName>_DataDictionary.xlsx` (backslash join of the
output directory and the own name of the database). -/
theorem save_once_terminal (cache : SchemaCache) (directory dbname : String) :
    (DDSpider.runOps cache directory dbname).filter XLOp.isSave =
      [XLOp.saveOp (directory ++ "\\" ++ dbname ++ "_DataDictionary.xlsx")] ∧
    (DDSpider.runOps cache directory dbname).getLast? =
      Option.some (XLOp.saveOp (XLService.fullpath directory dbname)) ∧
    (DDSpider.runOps cache directory dbname).dropLast =
      (DDSpider.run cache).map XLOp.describe ∧
    XLService.fullpath directory dbname =
      directory ++ "\\" ++ dbname ++ "_DataDictionary.xlsx" := by
  refine ⟨?_, ?_, ?_, rfl⟩
  · simp [DDSpider.runOps, List.filter_append, List.filter_map,
      Function.comp, XLOp.isSave, XLService.fullpath]
  · simp [DDSpider.runOps]
  · simp [DDSpider.runOps]

/-- C1: the run produces one worksheet per cached table, in order; the
worksheet of table `i` is named after it, has one header row plus exactly
one row per cached column of that table, row 1 is the header, and row
`j + 2` (the `j`-th data row) is the row of the Field built from the
`j`-th cached column of that table — the cached columns being in catalog
ordinal-position order. -/
theorem run_worksheet_rows (cache : SchemaCache) (i : Nat)
    (hi : i < cache.tables.length) :
    (DDSpider.run cache).length = cache.tables.length ∧
    (∃ ws, (DDSpider.run cache)[i]? = Option.some ws ∧
      ws.name = cache.tables.get ⟨i, hi⟩ ∧
      ws.rows.length =
        (cache.get_columns_for_table (cache.tables.get ⟨i, hi⟩)).length + 1 ∧
      ws.rows[0]? = Option.some headerRow ∧
      ∀ j : Nat, ws.rows[j + 1]? =
        ((cache.get_columns_for_table (cache.tables.get ⟨i, hi⟩))[j]?).map
          (fun col =>
            (DDSpider.make_field cache (cache.tables.get ⟨i, hi⟩) col).to_row)) := by
  constructor
  · simp [DDSpider.run]
  · refine ⟨XLService.describe_table
      { table_name := cache.tables.get ⟨i, hi⟩
        fields := (cache.get_columns_for_table (cache.tables.get ⟨i, hi⟩)).map
          (DDSpider.make_field cache (cache.tables.get ⟨i, hi⟩)) }, ?_, rfl, ?_, ?_, ?_⟩
    · simp [DDSpider.run, List.getElem?_map, List.getElem?_eq_getElem hi]
    · simp [XLService.describe_table]
    · simp [XLService.describe_table]
    · intro j
      simp only [XLService.describe_table, List.getElem?_cons_succ,
        List.getElem?_map, Option.map_map]
      rfl

/-- A one-table, one-column cache used to instantiate theorems with
hypotheses on concrete data. -/
def cacheUsers : SchemaCache :=
  SchemaCache.mk ["Users"]
    [Column.mk "Users" "id" "NO" "int" Option.none Option.none true]
    [Constraint.mk "PK_Users" "PRIMARY KEY" "Users" "id" "" ""]

/-- C1 witness: `run_worksheet_rows` applied to `cacheUsers` at table
index 0, its bound discharged by evaluation. -/
theorem run_worksheet_rows_witness :
    0 < cacheUsers.tables.length ∧
    (DDSpider.run cacheUsers).length = cacheUsers.tables.length :=
  ⟨by decide, (run_worksheet_rows cacheUsers 0 (by decide)).1⟩

/-- C7: every failing external step makes the whole pipeline return that
very error — the first failure wins, nothing later runs, nothing is caught
— and an erroring pipeline produces no output file. -/
theorem pipeline_error_propagation (o : DBOracle) (d : String) (e : StepError) :
    (o.tablesRes = Except.error e → discoverdbE o d = Except.error e) ∧
    (∀ ts, o.tablesRes = Except.ok ts → o.columnsRes = Except.error e →
      discoverdbE o d = Except.error e) ∧
    (∀ ts cs, o.tablesRes = Except.ok ts → o.columnsRes = Except.ok cs →
      o.constraintsRes = Except.error e → discoverdbE o d = Except.error e) ∧
    (∀ ts cs ks, o.tablesRes = Except.ok ts → o.columnsRes = Except.ok cs →
      o.constraintsRes = Except.ok ks → o.saveRes = Except.error e →
      discoverdbE o d = Except.error e) ∧
    (discoverdbE o d = Except.error e →
      savedFile (discoverdbE o d) = Option.none) := by
  refine ⟨fun h => ?_, fun ts h1 h2 => ?_, fun ts cs h1 h2 h3 => ?_,
    fun ts cs ks h1 h2 h3 h4 => ?_, fun h => ?_⟩
  · simp [discoverdbE, Except.bind, h]
  · simp [discoverdbE, Except.bind, h1, h2]
  · simp [discoverdbE, Except.bind, h1, h2, h3]
  · simp [discoverdbE, Except.bind, h1, h2, h3, h4]
  · rw [h]; rfl

/-- An oracle whose connection/table query fails and whose other steps
would succeed. -/
def oracleBad : DBOracle :=
  DBOracle.mk (Except.error StepError.connect) (Except.ok [])
    (Except.ok []) "db" (Except.ok ())

/-- C7 witness: `pipeline_error_propagation` applied to `oracleBad`; the
failed table query aborts the run with its own error and no file. -/
theorem pipeline_error_propagation_witness :
    discoverdbE oracleBad "out" = Except.error StepError.connect ∧
    savedFile (discoverdbE oracleBad "out") = Option.none :=
  ⟨(pipeline_error_propagation oracleBad "out" StepError.connect).1 rfl,
    (pipeline_error_propagation oracleBad "out" StepError.connect).2.2.2.2
      ((pipeline_error_propagation oracleBad "out" StepError.connect).1 rfl)⟩

/-- C9: when every external step succeeds and some cached table has no
cached column, the pipeline still completes (no error) and that table
worksheet is exactly the header row with zero data rows. -/
theorem empty_table_header_only (o : DBOracle) (directory : String)
    (ts : List String) (cs : List Column) (ks : List Constraint)
    (h1 : o.tablesRes = Except.ok ts) (h2 : o.columnsRes = Except.ok cs)
    (h3 : o.constraintsRes = Except.ok ks) (h4 : o.saveRes = Except.ok ())
    (i : Nat) (hi : i < ts.length)
    (hz : (SchemaCache.mk ts cs ks).get_columns_for_table (ts.get ⟨i, hi⟩) = []) :
    ∃ wss, discoverdbE o directory =
        Except.ok (XLService.fullpath directory o.dbname, wss) ∧
      wss[i]? = Option.some (Worksheet.mk (ts.get ⟨i, hi⟩) [headerRow]) := by
  refine ⟨DDSpider.run (SchemaCache.mk ts cs ks), ?_, ?_⟩
  · simp [discoverdbE, Except.bind, h1, h2, h3, h4]
  · simp only [List.get_eq_getElem] at hz
    simp [DDSpider.run, List.getElem?_map, List.getElem?_eq_getElem hi, hz,
      XLService.describe_table]

/-- An oracle whose catalog holds one table with no columns at all. -/
def oracleEmptyTable : DBOracle :=
  DBOracle.mk (Except.ok ["Empty"]) (Except.ok []) (Except.ok []) "db"
    (Except.ok ())

/-- C9 witness: `empty_table_header_only` applied to `oracleEmptyTable` at
table index 0, every hypothesis discharged by evaluation. -/
theorem empty_table_header_only_witness :
    ∃ wss, discoverdbE oracleEmptyTable "out" =
        Except.ok (XLService.fullpath "out" "db", wss) ∧
      wss[0]? = Option.some (Worksheet.mk "Empty" [headerRow]) :=
  empty_table_header_only oracleEmptyTable "out" ["Empty"] [] [] rfl rfl rfl rfl
    0 (by decide) rfl

/-- C8: whatever the raw catalog holds — even when `sysdiagrams` rows are
present in every view — the table list, the column list and the constraint
list produced by the three queries exclude `sysdiagrams`, and no worksheet
of the run is named `sysdiagrams`. -/
theorem sysdiagrams_never_appears (cat : RawCatalog) :
    ((DBService.get_tables cat).all (fun t => t != "sysdiagrams")) = true ∧
    ((DBService.get_columns cat).all
      (fun c => c.TABLE_NAME != "sysdiagrams")) = true ∧
    ((DBService.get_constraints cat).all
      (fun k => k.CONSTRAINED_TABLE != "sysdiagrams")) = true ∧
    ((DDSpider.run (SchemaCache.bootstrap cat)).all
      (fun ws => ws.name != "sysdiagrams")) = true := by
  have htab : ∀ t ∈ DBService.get_tables cat, t ≠ "sysdiagrams" := by
    intro t ht
    simp only [DBService.get_tables, List.mem_map, List.mem_filter,
      Bool.and_eq_true, bne_iff_ne, beq_iff_eq] at ht
    obtain ⟨r, ⟨-, hne, -⟩, rfl⟩ := ht
    exact hne
  have hcol : ∀ c ∈ DBService.get_columns cat, c.TABLE_NAME ≠ "sysdiagrams" := by
    intro c hc
    simp only [DBService.get_columns, List.mem_map] at hc
    obtain ⟨r, hr, rfl⟩ := hc
    rw [List.mem_insertionSort] at hr
    rw [List.mem_filter, List.any_eq_true] at hr
    obtain ⟨-, t, ht, hp⟩ := hr
    simp only [Bool.and_eq_true, beq_iff_eq, bne_iff_ne] at hp
    have heq : t.TABLE_NAME = r.TABLE_NAME := by tauto
    have hne : t.TABLE_NAME ≠ "sysdiagrams" := by tauto
    exact heq ▸ hne
  have hcon : ∀ k ∈ DBService.get_constraints cat,
      k.CONSTRAINED_TABLE ≠ "sysdiagrams" := by
    intro k hk
    simp only [DBService.get_constraints, List.mem_map, List.mem_filter,
      Bool.and_eq_true, bne_iff_ne] at hk
    obtain ⟨r, ⟨-, -, hne⟩, rfl⟩ := hk
    exact hne
  refine ⟨?_, ?_, ?_, ?_⟩
  · simp only [List.all_eq_true, bne_iff_ne, decide_eq_true_eq]
    exact htab
  · simp only [List.all_eq_true, bne_iff_ne, decide_eq_true_eq]
    exact hcol
  · simp only [List.all_eq_true, bne_iff_ne, decide_eq_true_eq]
    exact hcon
  · simp only [List.all_eq_true, bne_iff_ne, decide_eq_true_eq]
    intro ws hws
    simp only [DDSpider.run, SchemaCache.bootstrap, List.mem_map] at hws
    obtain ⟨t, ht, rfl⟩ := hws
    exact htab t ht

end DbDoc
